import Mathlib

/-!
Verification of the race-schedule acquisition, normalization and countdown
logic of the NashfyPitStop front end (public/main.js, public/cms-client.js).

The JavaScript is shallowly embedded:

* A JS object reaching the schedule code is modelled by the `Race` structure;
  every field the code dereferences is an `Option` (`none` = absent/undefined,
  `some ""` = present empty string, which is falsy in JS).
* A JS `Date` value is `Option DateTime` (`none` = Invalid Date, whose
  comparisons are all false and whose `getFullYear()` is `NaN`).
* `new Date(string)` is modelled by `jsDate`, a parser for the ISO grammar
  `YYYY-MM-DD[THH:MM[:SS][Z]]` actually used by the repository's data sources;
  every string outside that grammar parses to Invalid Date, matching the JS
  behaviour on the inputs the claims exercise (e.g. `new Date("soon")`).
  Timezone offsets are collapsed (the site displays everything in EAT); none
  of the verified properties depends on an absolute UTC offset.
* Network effects are turned into explicit inputs: each tier's response (or
  its failure) is a parameter of the acquisition function.
-/

namespace NashfyPitStop

/-! ### JS truthiness helpers -/

/-- JS truthiness of a possibly-absent string: `undefined`, `null` and `""`
are falsy, every other string is truthy. -/
def truthyS : Option String → Bool
  | some s => s ≠ ""
  | none => false

/-- JS truthiness of a possibly-absent number: `undefined` and `0` are falsy. -/
def truthyI : Option Int → Bool
  | some n => n ≠ 0
  | none => false

/-- JS `a || b` on possibly-absent strings: the first operand when truthy,
otherwise the second operand (which may itself be falsy). -/
def jsOrS (a b : Option String) : Option String :=
  if truthyS a then a else b

/-! ### Model of `new Date(string)` -/

/-- A parsed calendar instant. This models a *valid* JS `Date`; an arbitrary
JS `Date` (possibly invalid) is `Option DateTime`. -/
structure DateTime where
  year : Int
  month : Nat
  day : Nat
  hour : Nat
  minute : Nat
  second : Nat
deriving DecidableEq, Repr

/-- Strictly monotone encoding of a `DateTime` into `Int`, used as the sort /
comparison key. Faithful to JS `Date` subtraction ordering for the validated
field ranges (`month ≤ 12`, `day ≤ 31`, `hour ≤ 23`, `minute, second ≤ 59`). -/
def DateTime.toKey (d : DateTime) : Int :=
  ((((d.year * 13 + d.month) * 32 + d.day) * 24 + d.hour) * 60 + d.minute) * 60 + d.second

/-- Split a character list at every occurrence of `c` (model of splitting a
JS string; structural so that the kernel can evaluate it). -/
def splitOnChar (c : Char) : List Char → List (List Char)
  | [] => [[]]
  | x :: xs =>
    let r := splitOnChar c xs
    if x = c then [] :: r
    else
      match r with
      | [] => [[x]]
      | y :: ys => (x :: y) :: ys

/-- Value of a non-empty all-digit character string; `none` otherwise. -/
def digitsVal (cs : List Char) : Option Nat :=
  if cs.isEmpty then none
  else if cs.all (fun c => c.isDigit) then
    some (cs.foldl (fun n c => n * 10 + (c.toNat - 48)) 0)
  else none

/-- Drop a single trailing `Z` (UTC marker) from a time string. -/
def stripZ (cs : List Char) : List Char :=
  match cs.getLast? with
  | some c => if c = 'Z' then cs.dropLast else cs
  | none => cs

/-- Parse `HH:MM[:SS]` with optional trailing `Z`. -/
def parseTimeChars (cs : List Char) : Option (Nat × Nat × Nat) :=
  match splitOnChar ':' (stripZ cs) with
  | [h, m] =>
    match digitsVal h, digitsVal m with
    | some hv, some mv => if hv ≤ 23 ∧ mv ≤ 59 then some (hv, mv, 0) else none
    | _, _ => none
  | [h, m, s] =>
    match digitsVal h, digitsVal m, digitsVal s with
    | some hv, some mv, some sv =>
      if hv ≤ 23 ∧ mv ≤ 59 ∧ sv ≤ 59 then some (hv, mv, sv) else none
    | _, _, _ => none
  | _ => none

/-- Parse `YYYY-MM-DD`. -/
def parseYMDChars (cs : List Char) : Option (Int × Nat × Nat) :=
  match splitOnChar '-' cs with
  | [y, mo, da] =>
    match digitsVal y, digitsVal mo, digitsVal da with
    | some yv, some mov, some dav =>
      if 1 ≤ mov ∧ mov ≤ 12 ∧ 1 ≤ dav ∧ dav ≤ 31 then some ((yv : Int), mov, dav) else none
    | _, _, _ => none
  | _ => none

/-- Parse `YYYY-MM-DD` or `YYYY-MM-DDTHH:MM[:SS][Z]`. -/
def parseISOChars (cs : List Char) : Option DateTime :=
  match splitOnChar 'T' cs with
  | [d] => (parseYMDChars d).map (fun y => ⟨y.1, y.2.1, y.2.2, 0, 0, 0⟩)
  | [d, t] =>
    match parseYMDChars d, parseTimeChars t with
    | some y, some tv => some ⟨y.1, y.2.1, y.2.2, tv.1, tv.2.1, tv.2.2⟩
    | _, _ => none
  | _ => none

/-- Model of JS `new Date(s)`: `none` is an Invalid Date. -/
def jsDate (s : String) : Option DateTime :=
  parseISOChars s.toList

/-- Remove the first occurrence of `pat` from a character list; model of JS
`String.prototype.replace` with a plain-string pattern and empty replacement
(JS replaces only the first occurrence). -/
def removeFirstSub (pat : List Char) : List Char → List Char
  | [] => []
  | c :: cs =>
    if pat.isPrefixOf (c :: cs) then (c :: cs).drop pat.length
    else c :: removeFirstSub pat cs

/-- Model of `s.replace('+03:00', '').replace('Z', '')` from `parseRaceDate`'s
combined-datetime branch. -/
def stripTZString (s : String) : String :=
  ⟨removeFirstSub "Z".toList (removeFirstSub "+03:00".toList s.toList)⟩

/-! ### The race-event object -/

/-- A JS object that can appear at `race.Circuit.Location` or `race.location`:
a bag of possibly-absent string fields. JS objects are always truthy. -/
structure LocObj where
  country : Option String := none
  locality : Option String := none
  city : Option String := none
deriving DecidableEq, Repr

/-- Value of the `race.location` field: either a flat string or a nested
object (both occur across the upstream shapes). -/
inductive LocVal where
  | str (s : String)
  | obj (o : LocObj)
deriving DecidableEq, Repr

/-- A raw race event as received from any of the upstream sources. Fields are
exactly the property names dereferenced in `public/main.js`
(`race.Circuit?.Location` is collapsed into the single optional
`circuitLocation` object; `race.track?.location` into `trackLocation`). -/
structure Race where
  raceName : Option String := none
  name : Option String := none
  grandPrix : Option String := none
  title : Option String := none
  circuit : Option String := none
  country : Option String := none
  circuitLocation : Option LocObj := none
  location : Option LocVal := none
  locality : Option String := none
  trackLocation : Option String := none
  round : Option Int := none
  roundNumber : Option Int := none
  date : Option String := none
  time : Option String := none
  raceDate : Option String := none
  raceTime : Option String := none
  startDate : Option String := none
  startTime : Option String := none
  datetime : Option String := none
  year : Option String := none
deriving DecidableEq, Repr

/-! ### `parseRaceDate` (main.js lines 1037-1064) -/

/-- The far-future sentinel `new Date('2099-12-31')`. -/
def sentinel2099 : DateTime := ⟨2099, 12, 31, 0, 0, 0⟩

/-- `RealTimeData.parseRaceDate`, embedded branch by branch from main.js:
try `date`+`time`, `date`, `raceDate`+`raceTime`, `raceDate`,
`startDate`+`startTime`, `startDate`, then `datetime` with its timezone
suffix stripped; if no field is present (truthy), `new Date('2099-12-31')`.
A present but unparsable field yields an Invalid Date (`none`), not the
sentinel. -/
def parseRaceDate (race : Race) : Option DateTime :=
  if truthyS race.date && truthyS race.time then
    jsDate (race.date.getD "" ++ "T" ++ race.time.getD "")
  else if truthyS race.date then
    jsDate (race.date.getD "")
  else if truthyS race.raceDate && truthyS race.raceTime then
    jsDate (race.raceDate.getD "" ++ "T" ++ race.raceTime.getD "")
  else if truthyS race.raceDate then
    jsDate (race.raceDate.getD "")
  else if truthyS race.startDate && truthyS race.startTime then
    jsDate (race.startDate.getD "" ++ "T" ++ race.startTime.getD "")
  else if truthyS race.startDate then
    jsDate (race.startDate.getD "")
  else if truthyS race.datetime then
    jsDate (stripTZString (race.datetime.getD ""))
  else
    some sentinel2099

/-- The date-resolution policy of the specification, written as an explicit
ordered list of attempts: for each attempt, a presence condition and the
string handed to `new Date`. -/
def dateAttempts (r : Race) : List (Bool × String) :=
  [ (truthyS r.date && truthyS r.time, r.date.getD "" ++ "T" ++ r.time.getD ""),
    (truthyS r.date, r.date.getD ""),
    (truthyS r.raceDate && truthyS r.raceTime, r.raceDate.getD "" ++ "T" ++ r.raceTime.getD ""),
    (truthyS r.raceDate, r.raceDate.getD ""),
    (truthyS r.startDate && truthyS r.startTime, r.startDate.getD "" ++ "T" ++ r.startTime.getD ""),
    (truthyS r.startDate, r.startDate.getD ""),
    (truthyS r.datetime, stripTZString (r.datetime.getD "")) ]

/-- Specification-side reformulation of `parseRaceDate`: the first attempt
whose presence condition holds wins; if none is present, the far-future
sentinel. -/
def parseRaceDatePriority (r : Race) : Option DateTime :=
  match (dateAttempts r).find? (fun a => a.1) with
  | some a => jsDate a.2
  | none => some sentinel2099

/-! ### `extractYearFromRace` (main.js lines 963-979) and the year filter -/

/-- Model of JS `parseInt` on the strings the `year` field can hold: value of
the longest leading digit run, `NaN` (`none`) when the string does not start
with a digit. -/
def parseIntJS (s : String) : Option Int :=
  match digitsVal (s.toList.takeWhile (fun c => c.isDigit)) with
  | some n => some (n : Int)
  | none => none

/-- `RealTimeData.extractYearFromRace`: `getFullYear` of the first present
field among `date`, `raceDate`, `startDate`, then `parseInt(race.year)`,
else the current year. An Invalid Date or failed `parseInt` gives `NaN`
(`none`), not the current-year default. -/
def extractYearFromRace (currentYear : Int) (race : Race) : Option Int :=
  if truthyS race.date then (jsDate (race.date.getD "")).map DateTime.year
  else if truthyS race.raceDate then (jsDate (race.raceDate.getD "")).map DateTime.year
  else if truthyS race.startDate then (jsDate (race.startDate.getD "")).map DateTime.year
  else if truthyS race.year then parseIntJS (race.year.getD "")
  else some currentYear

/-- The year filter of `loadRaceSchedule` (main.js lines 931-945): both the
`year !== currentYear` arm and the `else` arm keep a race exactly when
`extractYearFromRace(race) === year` (in the `else` arm `year` equals
`currentYear`); a `NaN` race year never equals the requested year. -/
def filterByYear (year currentYear : Int) (races : List Race) : List Race :=
  if year ≠ currentYear then
    races.filter (fun r => extractYearFromRace currentYear r = some year)
  else
    races.filter (fun r => extractYearFromRace currentYear r = some currentYear)

/-- The claim's reading of the derived year: first present field among
`date`, `raceDate`, `startDate`, `year`, *defaulting to the current year when
none of them parses*. Kept separate from `extractYearFromRace` (which is the
code's behaviour) so the two can be compared. -/
def claimDerivedYear (currentYear : Int) (race : Race) : Int :=
  (if truthyS race.date then (jsDate (race.date.getD "")).map DateTime.year
   else if truthyS race.raceDate then (jsDate (race.raceDate.getD "")).map DateTime.year
   else if truthyS race.startDate then (jsDate (race.startDate.getD "")).map DateTime.year
   else if truthyS race.year then parseIntJS (race.year.getD "")
   else none).getD currentYear

/-! ### The four-tier acquisition chain (`loadRaceSchedule`, main.js 832-961) -/

/-- Resolved value of `backend.getRaceSchedule(year, false)`; the whole
response is `none` when that call rejects (network error, non-2xx, or the
client's own validation throwing). `races = some l` means the `races` field
is present and is an array (`some []` is truthy in JS). -/
structure BackendResp where
  success : Bool
  races : Option (List Race)
deriving DecidableEq, Repr

/-- Parsed JSON body of the RapidAPI response: either a top-level array or an
object whose `races` / `data` / `schedule` fields, when present *and arrays*,
are modelled as `some list` (a present non-array field behaves like an absent
one, since the code also requires `Array.isArray`). -/
inductive RapidBody where
  | arr (l : List Race)
  | obj (racesF dataF scheduleF : Option (List Race))
deriving DecidableEq, Repr

/-- Which code path produced the race list. The first three constructors are
the code's `dataSource` strings `'backend-fastf1'`, `'rapidapi'`,
`'manual-json'`; `mockFallback` is the early-return path through
`renderMockSchedule()` (the spec's source tags `primary`, `secondary`,
`tertiary`, `fallback`). -/
inductive Source where
  | backendFastf1
  | rapidapi
  | manualJson
  | mockFallback
deriving DecidableEq, Repr

/-- The hard-coded list rendered by `renderMockSchedule` (main.js 1087-1112). -/
def mockRaces : List Race :=
  [ { round := some 1, name := some "Bahrain Grand Prix", country := some "Bahrain",
      date := some "2025-03-09T15:00:00Z" },
    { round := some 2, name := some "Saudi Arabian Grand Prix", country := some "Saudi Arabia",
      date := some "2025-03-23T17:00:00Z" },
    { round := some 3, name := some "Australian Grand Prix", country := some "Australia",
      date := some "2025-04-06T06:00:00Z" } ]

/-- Modelled from the spec: the bundled static file `public/data/race-schedule.json`
is part of this repository but not under `src/`; per the specification its
shape is `{races: [{round, raceName, country, locality, date, time, circuit}, ...]}`
and the data README documents the entry format with the Bahrain example used
here. Only its shape and non-emptiness matter to the claims. -/
def manualFileRaces : List Race :=
  [ { round := some 1, raceName := some "Bahrain Grand Prix", country := some "Bahrain",
      locality := some "Sakhir", date := some "2025-03-02", time := some "15:00:00Z",
      circuit := some "Bahrain International Circuit" } ]

/-- The tertiary response body `manualData` (its `races` field). -/
def manualData : BackendResp := ⟨true, some manualFileRaces⟩

/-- One acquisition attempt's external inputs: the resolved/failed responses
of the three network tiers. `manualOk = false` means the fetch of the bundled
file threw, returned non-ok, or failed to parse. -/
structure TierInputs where
  backend : Option BackendResp
  rapid : Option RapidBody
  manualOk : Bool
deriving DecidableEq, Repr

/-- Tier-1 acceptance test of `loadRaceSchedule`:
`backendData && backendData.success && backendData.races && backendData.races.length > 0`. -/
def tier1ok : Option BackendResp → Bool
  | some b => b.success && b.races.isSome && decide (0 < (b.races.getD []).length)
  | none => false

/-- The response-shape probe of the RapidAPI branch: top-level array, else the
first of `data.races`, `data.data`, `data.schedule` that is an array (empty
arrays included — `[]` is truthy in JS); `none` reproduces the
`'Invalid API response format'` throw. -/
def rapidProbe : RapidBody → Option (List Race)
  | .arr l => some l
  | .obj racesF dataF scheduleF =>
    if racesF.isSome then racesF
    else if dataF.isSome then dataF
    else scheduleF

/-- The plausibility test of one race:
`raceName || name || grandPrix || title` is truthy and is neither
`'Unknown'` nor `'unknown'`. -/
def rapidNamePlausible (race : Race) : Bool :=
  let n := jsOrS race.raceName (jsOrS race.name (jsOrS race.grandPrix race.title))
  truthyS n && n.getD "" ≠ "Unknown" && n.getD "" ≠ "unknown"

/-- `races.some(...)` plausibility check of the RapidAPI branch. -/
def rapidPlausible (l : List Race) : Bool :=
  l.any rapidNamePlausible

/-- Overall tier-2 acceptance: request resolved, probe found an array, the
array is non-empty, and the plausibility check passed. -/
def tier2ok : Option RapidBody → Bool
  | some body =>
    match rapidProbe body with
    | some l => decide (0 < l.length) && rapidPlausible l
    | none => false
  | none => false

/-- Tiers 3 and 4: on a successful fetch of the bundled file the race list is
`manualData.races || []` with tag `manual-json`; otherwise the early-return
`renderMockSchedule()` path with the hard-coded list. -/
def tier3select (manualOk : Bool) : List Race × Source :=
  if manualOk then (manualData.races.getD [], .manualJson)
  else (mockRaces, .mockFallback)

/-- Tiers 2 to 4 of `loadRaceSchedule`. -/
def tier2select (inp : TierInputs) : List Race × Source :=
  match inp.rapid with
  | some body =>
    match rapidProbe body with
    | some l =>
      if decide (0 < l.length) && rapidPlausible l then (l, .rapidapi)
      else tier3select inp.manualOk
    | none => tier3select inp.manualOk
  | none => tier3select inp.manualOk

/-- The tier-selection part of `loadRaceSchedule` (main.js 843-928 plus the
all-failed `renderMockSchedule` path): which race list is obtained and which
source produced it, before the year filter is applied. Total by construction:
every tier failure falls through to the next and the last tier cannot fail. -/
def tierSelect (inp : TierInputs) : List Race × Source :=
  match inp.backend with
  | some b =>
    if b.success && b.races.isSome && decide (0 < (b.races.getD []).length) then
      (b.races.getD [], .backendFastf1)
    else tier2select inp
  | none => tier2select inp

/-- Full `loadRaceSchedule` data path: tier selection followed by the year
filter, which is applied only when the source is `rapidapi` or `manual-json`
(the backend pre-filters, and the mock path returns early). -/
def loadRaceSchedule (inp : TierInputs) (year currentYear : Int) : List Race × Source :=
  let rs := tierSelect inp
  if rs.2 = Source.rapidapi ∨ rs.2 = Source.manualJson then
    (filterByYear year currentYear rs.1, rs.2)
  else rs

/-! ### Sorting (`renderSchedule`, main.js 994-1001) -/

/-- Comparison key of a race under the JS comparator `dateA - dateB`. Valid
dates compare by `DateTime.toKey`; the `getD 0` branch is only ever taken for
Invalid Dates, which the sortedness results exclude by hypothesis (JS gives
such comparisons `NaN`, which `Array.prototype.sort` treats as `0`). -/
def raceKey (r : Race) : Int :=
  ((parseRaceDate r).map DateTime.toKey).getD 0

/-- Order used by the schedule sort. -/
def raceLE (a b : Race) : Prop :=
  raceKey a ≤ raceKey b

instance : DecidableRel raceLE := fun a b => Int.decLe (raceKey a) (raceKey b)

instance : IsTotal Race raceLE := ⟨fun a b => Int.le_total (raceKey a) (raceKey b)⟩

instance : IsTrans Race raceLE := ⟨fun _ _ _ hab hbc => Int.le_trans hab hbc⟩

/-- `races.sort((a, b) => parseRaceDate(a) - parseRaceDate(b))`, the order in
which `renderSchedule` emits the schedule cards (modelled by a stable
comparison sort, as `Array.prototype.sort` is). -/
def sortRaces (races : List Race) : List Race :=
  races.insertionSort raceLE

/-! ### Countdown target selection (`startRaceCountdown`, main.js 1114-1177) -/

/-- `parseRaceDate(r) > now`: false for an Invalid Date (every comparison
with `NaN` is false in JS). -/
def jsAfter (now : Int) (r : Race) : Bool :=
  match parseRaceDate r with
  | some dt => decide (now < dt.toKey)
  | none => false

/-- The local-calculation branch of `startRaceCountdown` (taken when the
backend's `next-race` endpoint is unavailable): sort, then
`sortedRaces.find(r => parseRaceDate(r) > now)`. -/
def selectCountdownTarget (now : Int) (races : List Race) : Option Race :=
  (sortRaces races).find? (jsAfter now)

/-- What `startRaceCountdown`'s local branch writes to the page. -/
inductive CountdownOutcome where
  | started (target : Race) (heading : String)
  | seasonEnded (countdownText headingText : String)
deriving DecidableEq, Repr

/-- Display behaviour of the local branch of `startRaceCountdown`: with a
target, the heading becomes `` `${raceName} - Countdown` `` (name resolved by
`raceName || name || grandPrix || title || "Next Race"`) and the ticking
countdown starts; with no target, the countdown element reads `Season Ended`
and the heading `No upcoming races`. -/
def startRaceCountdownLocal (now : Int) (races : List Race) : CountdownOutcome :=
  match selectCountdownTarget now races with
  | some nextRace =>
    let n := jsOrS nextRace.raceName (jsOrS nextRace.name (jsOrS nextRace.grandPrix nextRace.title))
    let raceName := if truthyS n then n.getD "" else "Next Race"
    .started nextRace (raceName ++ " - Countdown")
  | none => .seasonEnded "Season Ended" "No upcoming races"

/-! ### Per-event field normalization (`renderSchedule`, main.js 1003-1014) -/

/-- `race.location?.country`. -/
def locationCountry (r : Race) : Option String :=
  match r.location with
  | some (.obj o) => o.country
  | _ => none

/-- `race.location?.city`. -/
def locationCity (r : Race) : Option String :=
  match r.location with
  | some (.obj o) => o.city
  | _ => none

/-- The flat `race.location` used as the pre-`"Unknown"` country fallback: a
string is itself (truthy when non-empty); an object is truthy and renders as
its JS string conversion. -/
def locationAsString (r : Race) : Option String :=
  match r.location with
  | some (.str s) => some s
  | some (.obj _) => some "[object Object]"
  | none => none

/-- `race.raceName || race.name || race.grandPrix || race.title || race.circuit
|| ` `` `Race ${index + 1}` ``. -/
def resolveName (i : Nat) (r : Race) : String :=
  let n := jsOrS r.raceName (jsOrS r.name (jsOrS r.grandPrix (jsOrS r.title r.circuit)))
  if truthyS n then n.getD "" else "Race " ++ toString (i + 1)

/-- `race.country || race.Circuit?.Location?.country || race.location?.country
|| race.location || "Unknown"`. -/
def resolveCountry (r : Race) : String :=
  let c := jsOrS r.country (jsOrS (r.circuitLocation.bind LocObj.country)
    (jsOrS (locationCountry r) (locationAsString r)))
  if truthyS c then c.getD "" else "Unknown"

/-- `race.locality || race.Circuit?.Location?.locality || race.location?.city
|| race.track?.location || race.circuit || ""`. -/
def resolveLocality (r : Race) : String :=
  let l := jsOrS r.locality (jsOrS (r.circuitLocation.bind LocObj.locality)
    (jsOrS (locationCity r) (jsOrS r.trackLocation r.circuit)))
  if truthyS l then l.getD "" else ""

/-- `race.round || race.roundNumber || (index + 1)` (`0` is falsy in JS). -/
def resolveRound (i : Nat) (r : Race) : Int :=
  if truthyI r.round then r.round.getD 0
  else if truthyI r.roundNumber then r.roundNumber.getD 0
  else (i : Int) + 1

/-- The canonical shape of one rendered event: the four resolved fields. -/
structure NormalizedEvent where
  name : String
  country : String
  locality : String
  round : Int
deriving DecidableEq, Repr

/-- The whole per-event field resolution of `renderSchedule` at list index `i`. -/
def resolveFields (i : Nat) (r : Race) : NormalizedEvent :=
  ⟨resolveName i r, resolveCountry r, resolveLocality r, resolveRound i r⟩

/-- A canonical-shape event re-expressed as a raw race object, using the
repository's canonical field names (`raceName`, flat `country`, flat
`locality`, `round` — the shape of the bundled data file). -/
def ofNormalized (e : NormalizedEvent) : Race :=
  { raceName := some e.name, country := some e.country,
    locality := some e.locality, round := some e.round }

/-! ### Join-club form (`cms-client.js` 90-131, `main.js` 2044-2069) -/

/-- `SanityClient.projectId` as configured in the repository. -/
def projectId : String := "j5jgcp4i"

/-- The alert text of `JoinClubForm.handleSubmit` (identical in the success
branch and the fallback branch). -/
def welcomeMessage : String :=
  "Welcome to NashfyPitStop! You\x27ve successfully joined our community. We\x27ll send you updates about upcoming events and races."

/-- Result of `SanityClient.submitJoinClubForm`: the returned `success` flag
and whether a mutation request was actually issued to the CMS. -/
structure SubmitResult where
  success : Bool
  networkWrite : Bool
deriving DecidableEq, Repr

/-- `SanityClient.submitJoinClubForm`. With no write token it logs and
returns `{success: false, ...}` without touching the network. With a token it
POSTs the mutation; `writeOutcome` is the outcome of that request
(`some true` = 2xx with body, `some false` = non-2xx so the `!response.ok`
throw is caught, `none` = fetch or json rejected, also caught). -/
def submitJoinClubForm (writeToken : Option String) (writeOutcome : Option Bool) : SubmitResult :=
  match writeToken with
  | none => ⟨false, false⟩
  | some _ =>
    match writeOutcome with
    | some true => ⟨true, true⟩
    | some false => ⟨false, true⟩
    | none => ⟨false, true⟩

/-- What `JoinClubForm.handleSubmit` leaves the user with. -/
structure FormOutcome where
  alertText : String
  formReset : Bool
deriving DecidableEq, Repr

/-- `JoinClubForm.handleSubmit`: since the configured `projectId` differs
from the `'YOUR_PROJECT_ID'` placeholder, it submits to the CMS; on
`result.success` it alerts the welcome message and resets the form, and on
failure it falls through to the fallback branch — which shows the same
success-styled welcome message and also resets the form. -/
def handleSubmit (writeToken : Option String) (writeOutcome : Option Bool) : FormOutcome :=
  if projectId ≠ "YOUR_PROJECT_ID" then
    let result := submitJoinClubForm writeToken writeOutcome
    if result.success then ⟨welcomeMessage, true⟩
    else ⟨welcomeMessage, true⟩
  else ⟨welcomeMessage, true⟩

/-! ### Weather (`loadWeather`, main.js 816-830) -/

/-- A JSON decimal number as it appears on the wire: value
`mantissa / 10 ^ exponent10`. -/
structure JsonNumber where
  mantissa : Int
  exponent10 : Nat
deriving DecidableEq, Repr

/-- Outcome of the weather fetch as seen inside `loadWeather`'s `try` block:
`throwErr` when `fetch` or `res.json()` rejects (transport error or malformed
body); `ok temp` when a JSON body was obtained, with
`temp = data?.current?.temperature_2m` when that field exists and is a
number. -/
inductive WeatherFetch where
  | throwErr
  | ok (temp : Option JsonNumber)

/-- JS `Math.round` on a decimal: round half towards positive infinity,
i.e. the floor of `x + 1/2`. -/
def jsMathRound (x : JsonNumber) : Int :=
  Int.fdiv (2 * x.mantissa + (10 : Int) ^ x.exponent10) (2 * (10 : Int) ^ x.exponent10)

/-- `RealTimeData.loadWeather`'s effect on the weather element's text.
`initialText` is whatever the element showed before the call: the code only
assigns in the `typeof temp === "number"` branch and in the `catch` branch,
so a well-formed response without a numeric `current.temperature_2m` leaves
the element unchanged. -/
def loadWeather (initialText : String) : WeatherFetch → String
  | .throwErr => "24°C"
  | .ok (some t) => toString (jsMathRound t) ++ "°C"
  | .ok none => initialText

/-! ### Countdown interval timers (main.js 1179-1276) -/

/-- The countdown-timer-relevant state of the page: the `this.countdownInterval`
handle, the set of countdown interval timers currently scheduled in the
browser, and a supply of fresh timer ids. -/
structure TimerState where
  countdownInterval : Option Nat
  active : Finset Nat
  nextId : Nat

/-- `if (this.countdownInterval) { clearInterval(this.countdownInterval); }` -/
def clearStoredInterval (s : TimerState) : TimerState :=
  match s.countdownInterval with
  | some t => { s with active := s.active.erase t }
  | none => s

/-- `this.countdownInterval = setInterval(update, 1000);` with a fresh id. -/
def startIntervalTimer (s : TimerState) : TimerState :=
  ⟨some s.nextId, insert s.nextId s.active, s.nextId + 1⟩

/-- Timer effect of `RealTimeData.updateCountdown`: `if (!el) return;`, then
clear the stored interval, then start and store a new one. -/
def updateCountdownTimers (elPresent : Bool) (s : TimerState) : TimerState :=
  if elPresent then startIntervalTimer (clearStoredInterval s) else s

/-- Timer effect of `RealTimeData.updateCountdownFromBackend`: same
clear-then-start discipline. -/
def updateCountdownFromBackendTimers (elPresent : Bool) (s : TimerState) : TimerState :=
  if elPresent then startIntervalTimer (clearStoredInterval s) else s

/-- Page state at load: `this.countdownInterval` undefined, no countdown
timer scheduled. -/
def initTimerState : TimerState := ⟨none, ∅, 0⟩

/-- One countdown-target selection: either of the two functions runs (the
element may or may not be in the DOM). -/
inductive CountdownStep : TimerState → TimerState → Prop where
  | viaUpdate (el : Bool) (s : TimerState) : CountdownStep s (updateCountdownTimers el s)
  | viaBackend (el : Bool) (s : TimerState) : CountdownStep s (updateCountdownFromBackendTimers el s)

/-- The stored handle tracks exactly the scheduled countdown timers. -/
def TimerInv (s : TimerState) : Prop :=
  match s.countdownInterval with
  | some t => s.active = {t}
  | none => s.active = ∅

/-! ### Claim-side reformulations and concrete demonstration inputs -/

/-- The probe as claim C4 words it: the first shape in the fixed order that is
a *non-empty* list (the code instead commits to the first field that is an
array, empty or not). -/
def claimProbe : RapidBody → Option (List Race)
  | .arr l => if l.isEmpty then none else some l
  | .obj racesF dataF scheduleF =>
    [racesF, dataF, scheduleF].findSome?
      (fun f =>
        match f with
        | some l => if l.isEmpty then none else some l
        | none => none)

/-- Tier-2 acceptance as claim C4 words it. -/
def claimTier2ok : Option RapidBody → Bool
  | some body =>
    match claimProbe body with
    | some l => rapidPlausible l
    | none => false
  | none => false

/-- A RapidAPI body whose `races` field is an empty array while its `data`
field holds a plausible race: the code and claim C4 disagree on it. -/
def c4Body : RapidBody :=
  .obj (some []) (some [{ raceName := some "Bahrain Grand Prix" }]) none

/-- A race whose only date-like field is present but unparsable. -/
def unparsableRace : Race := { date := some "soon" }

/-- Two-event demonstration list with past dates. -/
def demoPast : List Race :=
  [ { name := some "Bahrain Grand Prix", date := some "2025-03-09", time := some "15:00:00Z" },
    { name := some "Saudi Arabian Grand Prix", date := some "2025-03-23" } ]

/-- Mixed-shape demonstration list: one event with separate date and time
fields, one with only a combined datetime field. -/
def demoMixed : List Race :=
  [ { raceName := some "Saudi Arabian Grand Prix", date := some "2025-03-23",
      time := some "17:00:00Z" },
    { raceName := some "Bahrain Grand Prix",
      datetime := some "2025-03-09T15:00:00+03:00" } ]

/-! ## Helper lemmas -/

/-- When tier 1 is rejected, control falls through to the RapidAPI branch. -/
theorem tierSelect_of_tier1_fail (inp : TierInputs) (h1 : tier1ok inp.backend = false) :
    tierSelect inp = tier2select inp := by
  rcases inp with ⟨b, rp, mo⟩
  cases b with
  | none => rfl
  | some bb =>
    have h1c : (bb.success && bb.races.isSome && decide (0 < (bb.races.getD []).length)) = false := h1
    simp [tierSelect, h1c]

/-- When tier 2 is rejected, control falls through to the tertiary branch. -/
theorem tier2select_of_tier2_fail (inp : TierInputs) (h2 : tier2ok inp.rapid = false) :
    tier2select inp = tier3select inp.manualOk := by
  rcases inp with ⟨b, rp, mo⟩
  cases rp with
  | none => rfl
  | some body =>
    cases hp : rapidProbe body with
    | none => simp only [tier2select, hp]
    | some l =>
      simp only [tier2ok] at h2
      rw [hp] at h2
      have h2c : (decide (0 < l.length) && rapidPlausible l) = false := h2
      simp only [tier2select, hp]
      simp [h2c]

/-- When tier 2 is accepted, its probed list is used with the `rapidapi` tag. -/
theorem tier2select_of_ok (inp : TierInputs) (h2 : tier2ok inp.rapid = true) :
    (tier2select inp).2 = Source.rapidapi ∧ (tier2select inp).1 ≠ [] := by
  rcases inp with ⟨b, rp, mo⟩
  cases rp with
  | none => simp [tier2ok] at h2
  | some body =>
    cases hp : rapidProbe body with
    | none =>
      simp only [tier2ok] at h2
      rw [hp] at h2
      exact absurd h2 (by simp)
    | some l =>
      simp only [tier2ok] at h2
      rw [hp] at h2
      have h2c : (decide (0 < l.length) && rapidPlausible l) = true := h2
      simp only [tier2select, hp]
      rw [if_pos h2c]
      refine ⟨rfl, ?_⟩
      have hlen : 0 < l.length := of_decide_eq_true ((Bool.and_eq_true _ _).mp h2c).1
      exact List.ne_nil_of_length_pos hlen

/-! ## Claims -/

/-- Claim C1. For every combination of tier outcomes, the tier-selection part
of `loadRaceSchedule` is total (no exception escapes: every failure is caught
and demoted to the next tier) and yields a non-empty race list with the tag
of the tier that succeeded: `backend-fastf1` when the backend response is
accepted; `rapidapi` when the backend fails and the RapidAPI response is
accepted; `manual-json` when both fail and the bundled file loads; and when
all three network tiers throw, exactly the 3-item hard-coded list of
`renderMockSchedule` via the fallback path. Tier selection is independent of
the requested year (the year only parameterizes the backend request, whose
response is the `backend` input, and the later year filter). -/
theorem acquire_tier_outcomes (inp : TierInputs) :
    (tier1ok inp.backend = true →
      (tierSelect inp).2 = Source.backendFastf1 ∧ (tierSelect inp).1 ≠ []) ∧
    (tier1ok inp.backend = false → tier2ok inp.rapid = true →
      (tierSelect inp).2 = Source.rapidapi ∧ (tierSelect inp).1 ≠ []) ∧
    (tier1ok inp.backend = false → tier2ok inp.rapid = false → inp.manualOk = true →
      (tierSelect inp).2 = Source.manualJson ∧ (tierSelect inp).1 ≠ []) ∧
    (tier1ok inp.backend = false → tier2ok inp.rapid = false → inp.manualOk = false →
      tierSelect inp = (mockRaces, Source.mockFallback) ∧ mockRaces.length = 3) := by
  refine ⟨?_, ?_, ?_, ?_⟩
  · intro h1
    rcases inp with ⟨b, rp, mo⟩
    cases b with
    | none => simp [tier1ok] at h1
    | some bb =>
      have h1c : (bb.success && bb.races.isSome && decide (0 < (bb.races.getD []).length)) = true := h1
      simp only [tierSelect]
      rw [if_pos h1c]
      refine ⟨rfl, ?_⟩
      have h1s := (Bool.and_eq_true _ _).mp h1c
      exact List.ne_nil_of_length_pos (of_decide_eq_true h1s.2)
  · intro h1 h2
    rw [tierSelect_of_tier1_fail inp h1]
    exact tier2select_of_ok inp h2
  · intro h1 h2 h3
    rw [tierSelect_of_tier1_fail inp h1, tier2select_of_tier2_fail inp h2, h3]
    simp [tier3select, manualData, manualFileRaces]
  · intro h1 h2 h3
    rw [tierSelect_of_tier1_fail inp h1, tier2select_of_tier2_fail inp h2, h3]
    exact ⟨rfl, rfl⟩

/-- Claim C1, witness: with all three network tiers failing, the acquisition
returns exactly the 3-item hard-coded list through the fallback path. -/
theorem acquire_tier_outcomes_witness :
    tierSelect ⟨none, none, false⟩ = (mockRaces, Source.mockFallback) ∧
      mockRaces.length = 3 :=
  (acquire_tier_outcomes ⟨none, none, false⟩).2.2.2 rfl rfl rfl

/-- Claim C2, counterexample: an event whose only date-like field is present
but unparsable does *not* get the far-future sentinel — `new Date("soon")` is
an Invalid Date, so `parseRaceDate` yields an invalid instant, not
2099-12-31. The sentinel is returned only when no date-like field is present
at all. -/
theorem parseRaceDate_unparsable_counterexample :
    parseRaceDate unparsableRace = none ∧
      parseRaceDate unparsableRace ≠ some sentinel2099 := by
  decide

/-- Claim C2 (amended): `parseRaceDate` resolves the instant by exactly the
claimed fixed priority order — date+time, date, raceDate+raceTime, raceDate,
startDate+startTime, startDate, datetime with timezone suffix stripped — and
the first combination whose fields are *present* wins; when no date-like
field is present the result is the sentinel 2099-12-31 (so such events sort
last). Amendment forced by the counterexample: a *present but unparsable*
field yields an Invalid Date rather than the sentinel. -/
theorem parseRaceDate_priority_order (r : Race) :
    parseRaceDate r = parseRaceDatePriority r ∧
    ((dateAttempts r).all (fun a => !a.1) = true →
      parseRaceDate r = some sentinel2099) := by
  have heq : parseRaceDate r = parseRaceDatePriority r := by
    unfold parseRaceDate parseRaceDatePriority dateAttempts
    cases h1 : truthyS r.date <;> cases h2 : truthyS r.time <;>
      cases h3 : truthyS r.raceDate <;> cases h4 : truthyS r.raceTime <;>
      cases h5 : truthyS r.startDate <;> cases h6 : truthyS r.startTime <;>
      cases h7 : truthyS r.datetime <;>
      simp [List.find?, h1, h2, h3, h4, h5, h6, h7]
  refine ⟨heq, fun hall => ?_⟩
  rw [heq]
  unfold parseRaceDatePriority
  rw [List.find?_eq_none.mpr]
  · intro a ha
    have := (List.all_eq_true.mp hall) a ha
    simp_all
  
/-- Claim C2, witness: an event with no date-like fields at all parses to the
far-future sentinel via the priority order. -/
theorem parseRaceDate_priority_order_witness :
    parseRaceDate {} = some sentinel2099 :=
  (parseRaceDate_priority_order {}).2 (by decide)

/-- Claim C3, counterexample: an event whose `date` field is present but
unparsable does not default to the current year — its derived year is `NaN`,
so with requested year = current year = 2025 the code excludes it, while the
claim (first field *parsing*, default current year) would include it. -/
theorem yearFilter_unparsable_counterexample :
    claimDerivedYear 2025 unparsableRace = 2025 ∧
    extractYearFromRace 2025 unparsableRace = none ∧
    filterByYear 2025 2025 [unparsableRace] = [] := by
  decide

/-- Claim C3 (amended): when the schedule came from the `rapidapi` or
`manual-json` tier, an event is kept by the year filter of
`loadRaceSchedule` if and only if `extractYearFromRace` — first *present*
field among `date`, `raceDate`, `startDate`, `year`, in that order — yields
exactly the requested year; an event with *no* date-like field present
defaults to the current year (and hence is kept exactly when the requested
year is the current year). Amendment forced by the counterexample: an event
with a present but unparsable date field has `NaN` as derived year and is
always excluded, instead of defaulting to the current year. -/
theorem yearFilter_membership (inp : TierInputs) (year currentYear : Int) (r : Race) :
    (((tierSelect inp).2 = Source.rapidapi ∨ (tierSelect inp).2 = Source.manualJson) →
      (r ∈ (loadRaceSchedule inp year currentYear).1 ↔
        r ∈ (tierSelect inp).1 ∧ extractYearFromRace currentYear r = some year)) ∧
    ((truthyS r.date || truthyS r.raceDate || truthyS r.startDate || truthyS r.year) = false →
      extractYearFromRace currentYear r = some currentYear) := by
  constructor
  · intro hsrc
    have hload : (loadRaceSchedule inp year currentYear).1 =
        filterByYear year currentYear (tierSelect inp).1 := by
      simp only [loadRaceSchedule]
      rw [if_pos hsrc]
    rw [hload]
    unfold filterByYear
    by_cases hy : year = currentYear
    · subst hy
      simp [List.mem_filter]
    · rw [if_pos hy]
      simp [List.mem_filter]
  · intro hnone
    simp only [Bool.or_eq_false_iff] at hnone
    obtain ⟨⟨⟨hd, hrd⟩, hsd⟩, hyr⟩ := hnone
    unfold extractYearFromRace
    simp [hd, hrd, hsd, hyr]

/-- Claim C3, witness: a dateless event derives the current year and is kept
exactly when the requested year is the current year (run on the manual-json
tier with an all-failing backend and RapidAPI). -/
theorem yearFilter_membership_witness :
    (({} : Race) ∈ (loadRaceSchedule ⟨none, none, true⟩ 2025 2025).1 ↔
      ({} : Race) ∈ (tierSelect ⟨none, none, true⟩).1 ∧
        extractYearFromRace 2025 ({} : Race) = some 2025) ∧
    extractYearFromRace 2025 ({} : Race) = some 2025 :=
  ⟨(yearFilter_membership ⟨none, none, true⟩ 2025 2025 {}).1 (by decide),
   (yearFilter_membership ⟨none, none, true⟩ 2025 2025 {}).2 (by decide)⟩

/-- Claim C4, counterexample: on a body whose `races` field is an empty
array and whose `data` field is a non-empty plausible list, the claim's
probe ("first that is a non-empty list") accepts via `data`, but the code
commits to the empty `races` array and the tier fails. -/
theorem rapid_probe_counterexample :
    claimTier2ok (some c4Body) = true ∧ tier2ok (some c4Body) = false := by
  decide

/-- Claim C4 (amended): the RapidAPI acquirer probes the response shapes in
fixed order — top-level array, then the `races`, `data`, `schedule` fields —
and commits to the *first field that is an array, whether or not it is
empty* (third conjunct: an empty leading `races` array is chosen over any
later field). The tier succeeds exactly when the chosen array is non-empty
and at least one event's name (across `raceName`, `name`, `grandPrix`,
`title`) is truthy and differs from the placeholders `"Unknown"` and
`"unknown"`; then its list is used with tag `rapidapi` (first conjunct).
If the request, the probe, the emptiness gate, or the plausibility check
fails, the tier fails and control falls through to the tertiary source
(second conjunct). Amendment forced by the counterexample: "first non-empty
list" becomes "first array field, then fail if it is empty". -/
theorem rapid_probe_first_array (inp : TierInputs) (body : RapidBody)
    (l : List Race) (df sf : Option (List Race)) :
    (inp.rapid = some body → rapidProbe body = some l →
      (decide (0 < l.length) && rapidPlausible l) = true →
      tier1ok inp.backend = false → tierSelect inp = (l, Source.rapidapi)) ∧
    (tier1ok inp.backend = false → tier2ok inp.rapid = false →
      tierSelect inp = tier3select inp.manualOk) ∧
    rapidProbe (RapidBody.obj (some []) df sf) = some [] := by
  refine ⟨?_, ?_, rfl⟩
  · intro hr hp hacc h1
    rw [tierSelect_of_tier1_fail inp h1]
    rcases inp with ⟨b, rp, mo⟩
    simp only at hr
    subst hr
    simp only [tier2select, hp]
    rw [if_pos hacc]
  · intro h1 h2
    rw [tierSelect_of_tier1_fail inp h1, tier2select_of_tier2_fail inp h2]

/-- Claim C4, witness: a top-level-array body with one plausible race is
accepted and used with tag `rapidapi`; the disagreement body `c4Body` makes
the tier fail and control reach the tertiary selection. -/
theorem rapid_probe_first_array_witness :
    tierSelect ⟨none, some (.arr [{ raceName := some "Bahrain Grand Prix" }]), false⟩ =
      ([{ raceName := some "Bahrain Grand Prix" }], Source.rapidapi) ∧
    tierSelect ⟨none, some c4Body, true⟩ = tier3select true :=
  ⟨(rapid_probe_first_array ⟨none, some (.arr [{ raceName := some "Bahrain Grand Prix" }]), false⟩
      (.arr [{ raceName := some "Bahrain Grand Prix" }])
      [{ raceName := some "Bahrain Grand Prix" }] none none).1 rfl rfl (by decide) rfl,
   (rapid_probe_first_array ⟨none, some c4Body, true⟩ c4Body [] none none).2.1 rfl (by decide)⟩

/-- Claim C5. Countdown target selection (local branch of
`startRaceCountdown`) picks the first chronologically-sorted event whose
parsed instant is strictly after the current time. First conjunct: when every
event's instant is at or before now (Invalid Dates are never after now), no
event is selected and the display reads `Season Ended`. Second conjunct: when
now is strictly before every event's instant, an event with the earliest
instant is selected. -/
theorem countdown_selection (now : Int) (races : List Race) :
    ((∀ r ∈ races, ((parseRaceDate r).map DateTime.toKey).getD now ≤ now) →
      startRaceCountdownLocal now races =
        .seasonEnded "Season Ended" "No upcoming races") ∧
    (races ≠ [] → (∀ r ∈ races, (parseRaceDate r).isSome) →
      (∀ r ∈ races, now < raceKey r) →
      ∃ sel, selectCountdownTarget now races = some sel ∧ sel ∈ races ∧
        ∀ r ∈ races, raceKey sel ≤ raceKey r) := by
  have hperm : List.Perm (sortRaces races) races := List.perm_insertionSort raceLE races
  constructor
  · intro h
    have hnone : selectCountdownTarget now races = none := by
      unfold selectCountdownTarget
      rw [List.find?_eq_none]
      intro x hx hcontra
      have hxr : x ∈ races := hperm.mem_iff.mp hx
      cases hpx : parseRaceDate x with
      | none => simp [jsAfter, hpx] at hcontra
      | some dt =>
        have hle := h x hxr
        rw [hpx] at hle
        simp only [Option.map_some', Option.getD_some] at hle
        simp only [jsAfter, hpx, decide_eq_true_eq] at hcontra
        exact absurd hcontra (not_lt.mpr hle)
    unfold startRaceCountdownLocal
    rw [hnone]
  · intro hne hval hlt
    have hsort : List.Sorted raceLE (sortRaces races) :=
      List.sorted_insertionSort raceLE races
    cases hl : sortRaces races with
    | nil =>
      exfalso
      apply hne
      rw [hl] at hperm
      exact (hperm.symm).eq_nil
    | cons a t =>
      have hamem : a ∈ races := by
        have ha : a ∈ sortRaces races := by rw [hl]; exact List.mem_cons_self a t
        exact hperm.mem_iff.mp ha
      have hpa : jsAfter now a = true := by
        obtain ⟨dt, hdt⟩ := Option.isSome_iff_exists.mp (hval a hamem)
        have hk := hlt a hamem
        unfold raceKey at hk
        rw [hdt] at hk
        simp only [Option.map_some', Option.getD_some] at hk
        simp only [jsAfter, hdt]
        exact decide_eq_true hk
      refine ⟨a, ?_, hamem, ?_⟩
      · unfold selectCountdownTarget
        rw [hl]
        exact List.find?_cons_of_pos t hpa
      · intro r hr
        have hrmem : r ∈ sortRaces races := hperm.mem_iff.mpr hr
        rw [hl] at hrmem
        rcases List.mem_cons.mp hrmem with heq | hmem
        · rw [heq]
        · rw [hl] at hsort
          exact List.rel_of_sorted_cons hsort r hmem

/-- Claim C5, witness: with now far past both demonstration events the
selection signals season ended; with now before both, the earliest event
(Bahrain, 2025-03-09) is selectable as minimal. -/
theorem countdown_selection_witness :
    startRaceCountdownLocal (10 ^ 12) demoPast =
      .seasonEnded "Season Ended" "No upcoming races" ∧
    (∃ sel, selectCountdownTarget 0 demoPast = some sel ∧ sel ∈ demoPast ∧
      ∀ r ∈ demoPast, raceKey sel ≤ raceKey r) :=
  ⟨(countdown_selection (10 ^ 12) demoPast).1 (by decide),
   (countdown_selection 0 demoPast).2 (by decide) (by decide) (by decide)⟩

/-- Claim C6. For every acquired race list whose events all parse to valid
instants — including mixed-shape lists where some events carry separate
`date`/`time` fields and others only a combined `datetime` field — the order
in which `renderSchedule` emits the schedule is a permutation of the input
that is non-decreasing in the instants returned by `parseRaceDate`. -/
theorem renderSchedule_sorted (races : List Race)
    (h : ∀ r ∈ races, (parseRaceDate r).isSome) :
    List.Perm (sortRaces races) races ∧
    List.Pairwise
      (fun a b => ∃ da db, parseRaceDate a = some da ∧ parseRaceDate b = some db ∧
        da.toKey ≤ db.toKey)
      (sortRaces races) := by
  have hperm : List.Perm (sortRaces races) races := List.perm_insertionSort raceLE races
  refine ⟨hperm, ?_⟩
  have hsort : List.Pairwise raceLE (sortRaces races) :=
    List.sorted_insertionSort raceLE races
  refine hsort.imp_of_mem ?_
  intro a b ha hb hab
  obtain ⟨da, hda⟩ := Option.isSome_iff_exists.mp (h a (hperm.mem_iff.mp ha))
  obtain ⟨db, hdb⟩ := Option.isSome_iff_exists.mp (h b (hperm.mem_iff.mp hb))
  refine ⟨da, db, hda, hdb, ?_⟩
  unfold raceLE raceKey at hab
  rw [hda, hdb] at hab
  simpa using hab

/-- Claim C6, witness: the mixed-shape demonstration list (one event with
separate date and time fields, one with only a combined datetime field) is
emitted as a permutation sorted by parsed instant. -/
theorem renderSchedule_sorted_witness :
    List.Perm (sortRaces demoMixed) demoMixed ∧
    List.Pairwise
      (fun a b => ∃ da db, parseRaceDate a = some da ∧ parseRaceDate b = some db ∧
        da.toKey ≤ db.toKey)
      (sortRaces demoMixed) :=
  renderSchedule_sorted demoMixed (by decide)

/-- Claim C7. Per-event normalization is idempotent: applying the field
resolution of `renderSchedule` (name, country, locality, round, each by its
priority chain) to an event already in canonical shape — the resolved record
re-expressed with the repository's canonical field names, with a truthy name,
country and round — returns the event unchanged. -/
theorem normalize_idempotent (i : Nat) (e : NormalizedEvent)
    (hn : e.name ≠ "") (hc : e.country ≠ "") (hr : e.round ≠ 0) :
    resolveFields i (ofNormalized e) = e := by
  rcases e with ⟨n, c, lo, ro⟩
  simp only at hn hc hr
  unfold resolveFields ofNormalized resolveName resolveCountry resolveLocality resolveRound
  simp only [jsOrS, truthyS, truthyI, locationCountry, locationCity, locationAsString,
    Option.bind_none, Option.getD_some, NormalizedEvent.mk.injEq]
  by_cases hlo : lo = "" <;>
    simp [hn, hc, hr, hlo]

/-- Claim C7, witness: a concrete canonical event is a fixed point of the
field resolution. -/
theorem normalize_idempotent_witness :
    resolveFields 0 (ofNormalized ⟨"Bahrain Grand Prix", "Bahrain", "Sakhir", 1⟩) =
      ⟨"Bahrain Grand Prix", "Bahrain", "Sakhir", 1⟩ :=
  normalize_idempotent 0 ⟨"Bahrain Grand Prix", "Bahrain", "Sakhir", 1⟩
    (by decide) (by decide) (by decide)

/-- Claim C8. For every join-club submission made while no write token is
configured, `submitJoinClubForm` issues no network write and returns
`{success: false}`, yet `handleSubmit` still shows the success-styled
welcome message and resets the form — the write failure is never surfaced
to the user (regardless of what the write request would have returned). -/
theorem join_form_masks_failure (writeOutcome : Option Bool) :
    submitJoinClubForm none writeOutcome = ⟨false, false⟩ ∧
    handleSubmit none writeOutcome = ⟨welcomeMessage, true⟩ := by
  cases writeOutcome with
  | none => exact ⟨rfl, by decide⟩
  | some b => cases b <;> exact ⟨rfl, by decide⟩

/-- Claim C9, counterexample: a well-formed weather response that lacks a
numeric `current.temperature_2m` does *not* show the hardcoded fallback —
no exception is thrown, the numeric-type guard simply fails, and the
element is left with its previous text. -/
theorem weather_missing_field_counterexample :
    loadWeather "--" (.ok none) = "--" ∧ ("--" : String) ≠ "24°C" :=
  ⟨rfl, by decide⟩

/-- Claim C9 (amended): on a thrown weather fetch — transport error or
malformed body — the element shows the hardcoded fallback `24°C`; on success
it shows the rounded `current.temperature_2m`; but on a well-formed response
lacking a numeric `current.temperature_2m` the element is left unchanged
(amendment forced by the counterexample: the fallback is only written by the
`catch` branch, which such a response never reaches). -/
theorem weather_display (initialText : String) (t : JsonNumber) :
    loadWeather initialText .throwErr = "24°C" ∧
    loadWeather initialText (.ok (some t)) = toString (jsMathRound t) ++ "°C" ∧
    loadWeather initialText (.ok none) = initialText :=
  ⟨rfl, rfl, rfl⟩

/-- A countdown step preserves the timer invariant: both update functions
clear the stored interval before starting and storing a fresh one. -/
theorem timerInv_step (s s' : TimerState) (hstep : CountdownStep s s')
    (h : TimerInv s) : TimerInv s' := by
  have key : ∀ el : Bool, TimerInv (if el then startIntervalTimer (clearStoredInterval s) else s) := by
    intro el
    cases el with
    | false => simpa using h
    | true =>
      simp only [if_true]
      cases hc : s.countdownInterval with
      | none =>
        unfold TimerInv at h
        rw [hc] at h
        unfold TimerInv startIntervalTimer clearStoredInterval
        rw [hc]
        simp [h]
      | some t =>
        unfold TimerInv at h
        rw [hc] at h
        unfold TimerInv startIntervalTimer clearStoredInterval
        rw [hc]
        simp [h, Finset.erase_singleton]
  cases hstep with
  | viaUpdate el s => exact key el
  | viaBackend el s => exact key el

/-- Claim C10. At most one countdown interval timer is active at any time:
from page load, along any sequence of countdown-target selections through
`updateCountdown` and `updateCountdownFromBackend`, each call cancels the
previously stored countdown interval before starting a new one, so the set
of scheduled countdown timers never holds more than one element. -/
theorem countdown_timer_unique (s : TimerState)
    (hreach : Relation.ReflTransGen CountdownStep initTimerState s) :
    s.active.card ≤ 1 := by
  have hinv : TimerInv s := by
    induction hreach with
    | refl => simp [TimerInv, initTimerState]
    | tail _ hstep ih => exact timerInv_step _ _ hstep ih
  cases hs : s.countdownInterval with
  | none =>
    unfold TimerInv at hinv
    rw [hs] at hinv
    simp [hinv]
  | some t =>
    unfold TimerInv at hinv
    rw [hs] at hinv
    simp [hinv]

/-- Claim C10, witness: after one `updateCountdown` and one
`updateCountdownFromBackend` from page load, a single countdown timer is
scheduled. -/
theorem countdown_timer_unique_witness :
    (updateCountdownFromBackendTimers true (updateCountdownTimers true initTimerState)).active.card ≤ 1 :=
  countdown_timer_unique _
    (Relation.ReflTransGen.tail
      (Relation.ReflTransGen.single (CountdownStep.viaUpdate true initTimerState))
      (CountdownStep.viaBackend true (updateCountdownTimers true initTimerState)))

end NashfyPitStop

